import Mathlib

/-!
Verification of the funcx-web-service queue core
(`funcx_web_service/routes/redis_q.py`): the generic `RedisQueue`
client (`connect`, `get`, `put`), the `EndpointQueue` specialisation
(`enqueue`, `dequeue`), the store key layout and the error taxonomy.

The backing store is modelled as explicit state (`RedisStore`): hashes
map a key and a field to a string, lists map a key to an ordered list
of strings.  The blocking pop carries an explicit elapsed-time result,
following the blocking-pop protocol of the store client.  Remote calls
that may fail with a connection error take explicit fault flags.
Python exceptions become an explicit error type threaded through
`Except`.
-/

/-- JSON values as produced and consumed by the queue payloads
(Python dicts, lists, strings, integers, booleans, null). -/
inductive Json where
  | null : Json
  | bool : Bool → Json
  | num : Int → Json
  | str : String → Json
  | arr : List Json → Json
  | obj : List (String × Json) → Json

/-- Escape a single character the way the JSON encoder does. -/
def escapeChar (c : Char) : String :=
  if c = '\\' then "\\\\"
  else if c = '"' then "\\\""
  else if c = '\n' then "\\n"
  else if c = '\t' then "\\t"
  else if c = '\r' then "\\r"
  else String.singleton c

/-- Escape a string for inclusion in a JSON document. -/
def escapeString (s : String) : String :=
  s.data.foldl (fun acc c => acc ++ escapeChar c) ""

mutual

/-- Model of `json.dumps` with Python's default separators: a JSON
value rendered to its wire string. -/
def Json.dumps : Json → String
  | .null => "null"
  | .bool true => "true"
  | .bool false => "false"
  | .num n => toString n
  | .str s => "\"" ++ escapeString s ++ "\""
  | .arr xs => "[" ++ Json.dumpsArr xs ++ "]"
  | .obj kvs => "\x7b" ++ Json.dumpsObj kvs ++ "\x7d"

/-- Render array elements, comma-separated. -/
def Json.dumpsArr : List Json → String
  | [] => ""
  | [x] => Json.dumps x
  | x :: xs => Json.dumps x ++ ", " ++ Json.dumpsArr xs

/-- Render object members, comma-separated, `"key": value`. -/
def Json.dumpsObj : List (String × Json) → String
  | [] => ""
  | [(k, v)] => "\"" ++ escapeString k ++ "\": " ++ Json.dumps v
  | (k, v) :: kvs =>
      "\"" ++ escapeString k ++ "\": " ++ Json.dumps v ++ ", " ++ Json.dumpsObj kvs

end

/-- Skip JSON whitespace. -/
def skipWs : List Char → List Char
  | c :: cs => if c = ' ' ∨ c = '\n' ∨ c = '\t' ∨ c = '\r' then skipWs cs else c :: cs
  | [] => []

/-- Unescape one character after a backslash in a JSON string. -/
def unescapeChar (c : Char) : Option Char :=
  if c = '\\' then some '\\'
  else if c = '"' then some '"'
  else if c = '/' then some '/'
  else if c = 'n' then some '\n'
  else if c = 't' then some '\t'
  else if c = 'r' then some '\r'
  else none

/-- Parse the body of a JSON string (after the opening quote),
returning the decoded characters and the rest of the input. -/
def parseStringBody : Nat → List Char → Option (List Char × List Char)
  | 0, _ => none
  | _, [] => none
  | fuel + 1, c :: cs =>
      if c = '"' then some ([], cs)
      else if c = '\\' then
        match cs with
        | [] => none
        | e :: cs' =>
            match unescapeChar e with
            | none => none
            | some d =>
                match parseStringBody fuel cs' with
                | none => none
                | some (body, rest) => some (d :: body, rest)
      else
        match parseStringBody fuel cs with
        | none => none
        | some (body, rest) => some (c :: body, rest)

/-- Parse a run of decimal digits into a natural number. -/
def parseDigits : List Char → Nat → (Nat × List Char)
  | c :: cs, acc =>
      if c.isDigit then parseDigits cs (acc * 10 + (c.toNat - 48))
      else (acc, c :: cs)
  | [], acc => (acc, [])

/-- Parse a JSON integer (optional leading minus and digits). -/
def parseInt : List Char → Option (Int × List Char)
  | '-' :: c :: cs =>
      if c.isDigit then
        let (n, rest) := parseDigits (c :: cs) 0
        some (-(n : Int), rest)
      else none
  | c :: cs =>
      if c.isDigit then
        let (n, rest) := parseDigits (c :: cs) 0
        some ((n : Int), rest)
      else none
  | [] => none

mutual

/-- Fuel-indexed JSON value parser: model of `json.loads`'s grammar. -/
def parseVal : Nat → List Char → Option (Json × List Char)
  | 0, _ => none
  | fuel + 1, input =>
      match skipWs input with
      | 'n' :: 'u' :: 'l' :: 'l' :: rest => some (.null, rest)
      | 't' :: 'r' :: 'u' :: 'e' :: rest => some (.bool true, rest)
      | 'f' :: 'a' :: 'l' :: 's' :: 'e' :: rest => some (.bool false, rest)
      | '"' :: rest =>
          match parseStringBody (rest.length + 1) rest with
          | none => none
          | some (body, rest') => some (.str (String.mk body), rest')
      | '[' :: rest =>
          (match skipWs rest with
           | ']' :: rest' => some (.arr [], rest')
           | _ =>
               match parseElems fuel rest with
               | none => none
               | some (xs, rest') => some (.arr xs, rest'))
      | '\x7b' :: rest =>
          (match skipWs rest with
           | '\x7d' :: rest' => some (.obj [], rest')
           | _ =>
               match parseMembers fuel rest with
               | none => none
               | some (kvs, rest') => some (.obj kvs, rest'))
      | rest =>
          match parseInt rest with
          | none => none
          | some (n, rest') => some (.num n, rest')

/-- Parse one or more comma-separated array elements then `]`. -/
def parseElems : Nat → List Char → Option (List Json × List Char)
  | 0, _ => none
  | fuel + 1, input =>
      match parseVal fuel input with
      | none => none
      | some (x, rest) =>
          match skipWs rest with
          | ',' :: rest' =>
              (match parseElems fuel rest' with
               | none => none
               | some (xs, rest'') => some (x :: xs, rest''))
          | ']' :: rest' => some ([x], rest')
          | _ => none

/-- Parse one or more comma-separated object members then the closing
brace. -/
def parseMembers : Nat → List Char → Option (List (String × Json) × List Char)
  | 0, _ => none
  | fuel + 1, input =>
      match skipWs input with
      | '"' :: rest =>
          (match parseStringBody (rest.length + 1) rest with
           | none => none
           | some (key, rest') =>
               match skipWs rest' with
               | ':' :: rest'' =>
                   (match parseVal fuel rest'' with
                    | none => none
                    | some (v, rest3) =>
                        match skipWs rest3 with
                        | ',' :: rest4 =>
                            (match parseMembers fuel rest4 with
                             | none => none
                             | some (kvs, rest5) =>
                                 some ((String.mk key, v) :: kvs, rest5))
                        | '\x7d' :: rest4 => some ([(String.mk key, v)], rest4)
                        | _ => none)
               | _ => none)
      | _ => none

end

/-- Model of `json.loads`: parse a complete JSON document, failing on
trailing garbage (a `json.JSONDecodeError` in the source). -/
def Json.loads (s : String) : Option Json :=
  match parseVal (s.length + 2) s.data with
  | none => none
  | some (v, rest) =>
      match skipWs rest with
      | [] => some v
      | _ => none

example : Json.loads (Json.dumps (.obj [("a", .num 1), ("b", .num 2)]))
    = some (.obj [("a", .num 1), ("b", .num 2)]) := by rfl

/-! ## The store model -/

/-- The shared Redis store: `hashes` is the hash records (key, field
to value, as read by `hget`/written by `hset`); `lists` is the ordered
lists (key to elements, head first, as used by `rpush`/`blpop`).  All
values are strings (the client is built with `decode_responses=True`). -/
structure RedisStore where
  hashes : String → String → Option String
  lists : String → List String

/-- `HSET key field value`. -/
def RedisStore.hset (s : RedisStore) (key field v : String) : RedisStore :=
  { s with hashes := fun k' f' =>
      if k' = key then (if f' = field then some v else s.hashes k' f')
      else s.hashes k' f' }

/-- `HGET key field`. -/
def RedisStore.hget (s : RedisStore) (key field : String) : Option String :=
  s.hashes key field

/-- `RPUSH key value`: append at the tail of the list. -/
def RedisStore.rpush (s : RedisStore) (key v : String) : RedisStore :=
  { s with lists := fun k' => if k' = key then s.lists key ++ [v] else s.lists k' }

/-- `BLPOP key timeout`, the single-key blocking pop protocol: if the
list is non-empty its head is removed and returned immediately
(elapsed 0) as a `(list_name, element)` pair; if the list stays empty
for the whole window the call returns nothing after `timeout` seconds.
The third component of the result is the elapsed time in seconds. -/
def RedisStore.blpop (s : RedisStore) (key : String) (timeout : Nat) :
    Option (String × String) × RedisStore × Nat :=
  match s.lists key with
  | [] => (none, s, timeout)
  | x :: xs =>
      (some (key, x), { s with lists := fun k' => if k' = key then xs else s.lists k' }, 0)

/-! ## Error taxonomy

Python exceptions escaping the queue operations, made explicit. -/

/-- Errors raised by queue operations: `notConnected` carries the
queue's repr (the `NotConnected` exception identifies the queue
instance); `empty` is `queue.Empty`; `attributeError` is an uncaught
`AttributeError` from dereferencing the `None` client;
`connectionError` is `redis.exceptions.ConnectionError` (logged and
re-raised); `typeError` is `json.loads(None)`; `jsonDecodeError` is a
JSON decoding failure. -/
inductive QErr where
  | notConnected (queueRepr : String)
  | empty
  | attributeError
  | connectionError
  | typeError
  | jsonDecodeError
deriving DecidableEq

/-- A store-side operation issued by the client, recorded in issue
order to reason about the ordering of remote effects. -/
inductive StoreOp where
  | hsetOp (key field v : String)
  | rpushOp (key v : String)
deriving DecidableEq

/-! ## The generic queue client (`RedisQueue`) -/

/-- State of a `RedisQueue` instance: host, port, the lazily created
connection handle (`None` until `connect`), and the key namespace
(the source's `prefix` attribute, field renamed here). -/
structure RedisQueue where
  hostname : String
  port : Nat
  redis_client : Option Nat
  prefixStr : String
deriving DecidableEq

/-- `RedisQueue.__init__(prefix, hostname, port=6379)`. -/
def RedisQueue.init (prefixStr hostname : String) (port : Nat := 6379) : RedisQueue :=
  { hostname := hostname, port := port, redis_client := none, prefixStr := prefixStr }

/-- `RedisQueue.__repr__`. -/
def RedisQueue.reprStr (q : RedisQueue) : String :=
  "<RedisQueue at " ++ q.hostname ++ ":" ++ toString q.port ++ "#" ++ q.prefixStr

/-- `RedisQueue.is_connected`: true iff a connection handle exists. -/
def RedisQueue.is_connected (q : RedisQueue) : Bool :=
  q.redis_client.isSome

/-- `RedisQueue.connect`: creates the client handle only when none
exists yet.  `conn` is the handle a fresh `redis.StrictRedis(...)`
would yield; the second component counts the underlying connections
established by this call (0 or 1). -/
def RedisQueue.connect (q : RedisQueue) (conn : Nat) : RedisQueue × Nat :=
  match q.redis_client with
  | some _ => (q, 0)
  | none => ({ q with redis_client := some conn }, 1)

/-- `RedisQueue.get(kind, timeout)`: blocking pop on
`<prefix>_list`; on timeout raise `queue.Empty`; otherwise `hget` the
field `kind` of hash `task_<task_id>` and JSON-decode it.  An
`AttributeError` (the `None` client) is translated to `NotConnected`.
Returns the outcome, the store after the call, and the elapsed time
of the blocking pop. -/
def RedisQueue.get (q : RedisQueue) (s : RedisStore) (kind : String) (timeout : Nat) :
    Except QErr (String × Json) × RedisStore × Nat :=
  match q.redis_client with
  | none => (.error (.notConnected q.reprStr), s, 0)
  | some _ =>
      match RedisStore.blpop s (q.prefixStr ++ "_list") timeout with
      | (none, s1, elapsed) => (.error .empty, s1, elapsed)
      | (some (_task_list, task_id), s1, elapsed) =>
          match RedisStore.hget s1 ("task_" ++ task_id) kind with
          | none => (.error .typeError, s1, elapsed)
          | some jtask_info =>
              match Json.loads jtask_info with
              | none => (.error .jsonDecodeError, s1, elapsed)
              | some task_info => (.ok (task_id, task_info), s1, elapsed)

/-- `RedisQueue.put(task_id, kind, payload)`: `hset` the JSON-encoded
payload into field `kind` of hash `task_<task_id>`, then `rpush`
`task_id` onto `<prefix>_list`.  `failHset` / `failRpush` inject a
`redis.exceptions.ConnectionError` at the corresponding remote call
(logged and re-raised by the source); an `AttributeError` (the `None`
client) is translated to `NotConnected`.  Returns the outcome, the
store after the call, and the store operations that took effect, in
issue order. -/
def RedisQueue.put (q : RedisQueue) (s : RedisStore) (failHset failRpush : Bool)
    (task_id kind : String) (payload : Json) :
    Except QErr Unit × RedisStore × List StoreOp :=
  match q.redis_client with
  | none => (.error (.notConnected q.reprStr), s, [])
  | some _ =>
      if failHset then (.error .connectionError, s, [])
      else
        let s1 := s.hset ("task_" ++ task_id) kind payload.dumps
        if failRpush then
          (.error .connectionError, s1, [.hsetOp ("task_" ++ task_id) kind payload.dumps])
        else
          (.ok (), s1.rpush (q.prefixStr ++ "_list") task_id,
           [.hsetOp ("task_" ++ task_id) kind payload.dumps,
            .rpushOp (q.prefixStr ++ "_list") task_id])

/-! ## The Task collaborator -/

/-- Modelled from the spec: the task state machine of
`funcx_web_service.models.tasks.TaskState`, a module not under `src/`.
The spec names the states `CREATED`, `WAITING_FOR_EP` (the point the
queue transitions to on enqueue), `RUNNING`, `SUCCESS`, `FAILED`. -/
inductive TaskState where
  | CREATED
  | WAITING_FOR_EP
  | RUNNING
  | SUCCESS
  | FAILED
deriving DecidableEq

/-- Modelled from the spec: the `Task` entity of
`funcx_web_service.models.tasks`, a module not under `src/`.  The spec
describes it as an external entity exposing mutable `task_id`,
(named `FxTask` here since Lean reserves `Task`)
`status` and `endpoint` attributes. -/
structure FxTask where
  task_id : String
  status : TaskState
  endpoint : String
deriving DecidableEq

/-! ## The endpoint queue (`EndpointQueue`) -/

/-- State of an `EndpointQueue`: the inherited `RedisQueue` state plus
the derived `queue_name` and the owning `endpoint`. -/
structure EndpointQueue where
  rq : RedisQueue
  queue_name : String
  endpoint : String
deriving DecidableEq

/-- `EndpointQueue.__init__(endpoint, hostname, port=6379)`: the base
class is initialised with prefix `task_<endpoint>`, then
`queue_name = <prefix>_list`. -/
def EndpointQueue.init (endpoint hostname : String) (port : Nat := 6379) : EndpointQueue :=
  let base := RedisQueue.init ("task_" ++ endpoint) hostname port
  { rq := base, queue_name := base.prefixStr ++ "_list", endpoint := endpoint }

/-- `EndpointQueue.enqueue(task)`: set `task.endpoint` and
`task.status = WAITING_FOR_EP`, then `rpush` the task id onto
`queue_name`.  There is no exception handler here: with no client
handle the `rpush` raises a bare `AttributeError` (after the task
mutations); `failRpush` injects a `ConnectionError` at the remote
call, likewise uncaught.  Returns the task as mutated, the outcome,
and the store after the call. -/
def EndpointQueue.enqueue (epq : EndpointQueue) (s : RedisStore) (failRpush : Bool)
    (task : FxTask) : FxTask × Except QErr Unit × RedisStore :=
  let task' := { task with endpoint := epq.endpoint, status := TaskState.WAITING_FOR_EP }
  match epq.rq.redis_client with
  | none => (task', .error .attributeError, s)
  | some _ =>
      if failRpush then (task', .error .connectionError, s)
      else (task', .ok (), s.rpush epq.queue_name task'.task_id)

/-- `EndpointQueue.dequeue(timeout)`: blocking pop on `queue_name`;
`queue.Empty` on timeout; on success the popped id is resolved through
the collaborator's `Task.from_id` lookup (passed in as `from_id`, the
module holding it is not under `src/`).  No exception handler: with no
client handle the `blpop` raises a bare `AttributeError`.  Returns the
outcome, the store after the call, and the elapsed time. -/
def EndpointQueue.dequeue (epq : EndpointQueue) (s : RedisStore) (timeout : Nat)
    (from_id : String → FxTask) : Except QErr FxTask × RedisStore × Nat :=
  match epq.rq.redis_client with
  | none => (.error .attributeError, s, 0)
  | some _ =>
      match RedisStore.blpop s epq.queue_name timeout with
      | (none, s1, elapsed) => (.error .empty, s1, elapsed)
      | (some (_, task_id), s1, elapsed) => (.ok (from_id task_id), s1, elapsed)

/-! ## Concrete fixtures for evaluation -/

/-- A store with no hash records and every list empty. -/
def store0 : RedisStore := { hashes := fun _ _ => none, lists := fun _ => [] }

/-- A connected generic client (handle 7, namespace `task`). -/
def q0 : RedisQueue :=
  { hostname := "127.0.0.1", port := 6379, redis_client := some 7, prefixStr := "task" }

/-- An unconnected generic client. -/
def q1 : RedisQueue := RedisQueue.init "task" "127.0.0.1"

/-- A connected endpoint queue for endpoint `ep-a` (handle 3). -/
def epq0 : EndpointQueue :=
  { rq := { hostname := "127.0.0.1", port := 6379, redis_client := some 3,
            prefixStr := "task_ep-a" },
    queue_name := "task_ep-a_list", endpoint := "ep-a" }

/-- An unconnected endpoint queue for endpoint `ep-a`. -/
def epq1 : EndpointQueue := EndpointQueue.init "ep-a" "127.0.0.1"

/-- A sample task, freshly created and unassigned. -/
def task0 : FxTask := { task_id := "t1", status := TaskState.CREATED, endpoint := "" }

/-- A sample collaborator lookup for `dequeue`. -/
def lookup0 : String → FxTask :=
  fun tid => { task_id := tid, status := TaskState.WAITING_FOR_EP, endpoint := "ep-a" }

/-- A sample JSON payload. -/
def jpayload : Json := .obj [("a", .num 1), ("b", .num 2)]

/-- A second sample JSON payload. -/
def jpayload2 : Json := .str "result-blob"

/-! ## Claims -/

/-- Claim C4: calling `get` or `put` on a queue client on which
`connect()` has not succeeded always fails with the `NotConnected`
error kind identifying the queue instance, regardless of prior state
(any store contents, any arguments, any fault flags). -/
theorem get_put_before_connect_not_connected
    (q : RedisQueue) (s : RedisStore) (kind task_id : String) (timeout : Nat)
    (payload : Json) (fh fr : Bool) (h : q.redis_client = none) :
    (q.get s kind timeout).1 = .error (.notConnected q.reprStr) ∧
    (q.put s fh fr task_id kind payload).1 = .error (.notConnected q.reprStr) := by
  constructor <;> simp [RedisQueue.get, RedisQueue.put, h]

/-- Witness for C4 at a concrete unconnected client and empty store. -/
theorem get_put_before_connect_not_connected_witness :
    (q1.get store0 "result" 5).1 = .error (.notConnected q1.reprStr) ∧
    (q1.put store0 false false "t1" "result" jpayload).1
      = .error (.notConnected q1.reprStr) :=
  get_put_before_connect_not_connected q1 store0 "result" "t1" 5 jpayload false false rfl

/-- Claim C6: `connect()` is idempotent: from the fresh state, calling
it twice establishes exactly one underlying connection (the one made
by the first call); calling it when a handle already exists is a no-op
returning the state unchanged with zero connections established. -/
theorem connect_idempotent
    (q q' : RedisQueue) (c1 c2 c3 c : Nat)
    (hfresh : q.redis_client = none) (hconn : q'.redis_client = some c) :
    ((q.connect c1).2 + ((q.connect c1).1.connect c2).2 = 1 ∧
     ((q.connect c1).1.connect c2).1.redis_client = some c1) ∧
    q'.connect c3 = (q', 0) := by
  refine ⟨⟨?_, ?_⟩, ?_⟩ <;> simp [RedisQueue.connect, hfresh, hconn]

/-- Witness for C6 at concrete fresh and connected clients. -/
theorem connect_idempotent_witness :
    ((q1.connect 11).2 + ((q1.connect 11).1.connect 12).2 = 1 ∧
     ((q1.connect 11).1.connect 12).1.redis_client = some 11) ∧
    q0.connect 13 = (q0, 0) :=
  connect_idempotent q1 q0 11 12 13 7 rfl rfl

/-- Claim C2: for every task, `enqueue(task)` on a connected
`EndpointQueue` for endpoint `e` sets `task.endpoint` to `e` and
`task.status` to `WAITING_FOR_EP`, and appends `task.task_id` at the
tail of the list `queue_name`. -/
theorem enqueue_sets_fields_and_appends
    (epq : EndpointQueue) (s : RedisStore) (c : Nat) (task : FxTask)
    (hconn : epq.rq.redis_client = some c) :
    (epq.enqueue s false task).1.endpoint = epq.endpoint ∧
    (epq.enqueue s false task).1.status = TaskState.WAITING_FOR_EP ∧
    (epq.enqueue s false task).2.1 = .ok () ∧
    ((epq.enqueue s false task).2.2).lists epq.queue_name
      = s.lists epq.queue_name ++ [task.task_id] := by
  refine ⟨?_, ?_, ?_, ?_⟩ <;>
    simp [EndpointQueue.enqueue, RedisStore.rpush, hconn]

/-- Witness for C2 at a concrete connected endpoint queue, empty
store and fresh task. -/
theorem enqueue_sets_fields_and_appends_witness :
    (epq0.enqueue store0 false task0).1.endpoint = epq0.endpoint ∧
    (epq0.enqueue store0 false task0).1.status = TaskState.WAITING_FOR_EP ∧
    (epq0.enqueue store0 false task0).2.1 = .ok () ∧
    ((epq0.enqueue store0 false task0).2.2).lists epq0.queue_name
      = store0.lists epq0.queue_name ++ [task0.task_id] :=
  enqueue_sets_fields_and_appends epq0 store0 3 task0 rfl

/-- Claim C9: unlike `get` and `put`, the `EndpointQueue` operations
`enqueue` and `dequeue` do not translate a missing connection into
`NotConnected`: called before `connect()`, each fails with a raw
`AttributeError` from dereferencing the `None` client, and in
`enqueue` the task's `status` and `endpoint` fields are already
mutated at that failure (the store is untouched). -/
theorem endpoint_ops_raw_attribute_error
    (epq : EndpointQueue) (s : RedisStore) (task : FxTask) (t : Nat)
    (from_id : String → FxTask) (h : epq.rq.redis_client = none) :
    (epq.enqueue s false task).2.1 = .error .attributeError ∧
    (epq.enqueue s false task).1.endpoint = epq.endpoint ∧
    (epq.enqueue s false task).1.status = TaskState.WAITING_FOR_EP ∧
    (epq.enqueue s false task).2.2 = s ∧
    (epq.dequeue s t from_id).1 = .error .attributeError := by
  refine ⟨?_, ?_, ?_, ?_, ?_⟩ <;>
    simp [EndpointQueue.enqueue, EndpointQueue.dequeue, h]

/-- Witness for C9 at a concrete unconnected endpoint queue. -/
theorem endpoint_ops_raw_attribute_error_witness :
    (epq1.enqueue store0 false task0).2.1 = .error .attributeError ∧
    (epq1.enqueue store0 false task0).1.endpoint = epq1.endpoint ∧
    (epq1.enqueue store0 false task0).1.status = TaskState.WAITING_FOR_EP ∧
    (epq1.enqueue store0 false task0).2.2 = store0 ∧
    (epq1.dequeue store0 2 lookup0).1 = .error .attributeError :=
  endpoint_ops_raw_attribute_error epq1 store0 task0 2 lookup0 rfl

/-- Claim C10: `put` and `enqueue` are not atomic on error: when the
list push fails (an injected `ConnectionError`) after the earlier side
effect succeeded, that earlier effect persists — in `put` the hash
field of `task_<task_id>` holds the JSON-encoded payload in the
resulting store, and in `enqueue` the task's `status` and `endpoint`
mutations are not rolled back. -/
theorem push_failure_not_atomic
    (q : RedisQueue) (epq : EndpointQueue) (s s' : RedisStore) (c c' : Nat)
    (task_id kind : String) (payload : Json) (task : FxTask)
    (hconn : q.redis_client = some c) (hconn' : epq.rq.redis_client = some c') :
    ((q.put s false true task_id kind payload).1 = .error .connectionError ∧
     ((q.put s false true task_id kind payload).2.1).hashes
        ("task_" ++ task_id) kind = some payload.dumps) ∧
    ((epq.enqueue s' true task).2.1 = .error .connectionError ∧
     (epq.enqueue s' true task).1.endpoint = epq.endpoint ∧
     (epq.enqueue s' true task).1.status = TaskState.WAITING_FOR_EP ∧
     (epq.enqueue s' true task).2.2 = s') := by
  refine ⟨⟨?_, ?_⟩, ?_, ?_, ?_, ?_⟩ <;>
    simp [RedisQueue.put, EndpointQueue.enqueue, RedisStore.hset, hconn, hconn']

/-- Witness for C10 at concrete connected clients and the empty
store. -/
theorem push_failure_not_atomic_witness :
    ((q0.put store0 false true "t1" "result" jpayload).1 = .error .connectionError ∧
     ((q0.put store0 false true "t1" "result" jpayload).2.1).hashes
        ("task_" ++ "t1") "result" = some jpayload.dumps) ∧
    ((epq0.enqueue store0 true task0).2.1 = .error .connectionError ∧
     (epq0.enqueue store0 true task0).1.endpoint = epq0.endpoint ∧
     (epq0.enqueue store0 true task0).1.status = TaskState.WAITING_FOR_EP ∧
     (epq0.enqueue store0 true task0).2.2 = store0) :=
  push_failure_not_atomic q0 epq0 store0 store0 7 3 "t1" "result" jpayload task0 rfl rfl

/-- Claim C3: the store key layout: `put(task_id, kind, payload)` on a
connected client writes the JSON-encoded payload to hash record
`task_<task_id>` under field `kind` and appends `task_id` to list
`<prefix>_list`; an `EndpointQueue` constructed for endpoint `e` uses
prefix `task_<e>`, so its list key is `task_<e>_list`. -/
theorem store_key_layout
    (q : RedisQueue) (s : RedisStore) (c : Nat) (task_id kind : String)
    (payload : Json) (e hn : String) (port : Nat)
    (hconn : q.redis_client = some c) :
    (((q.put s false false task_id kind payload).2.1).hashes
        ("task_" ++ task_id) kind = some (Json.dumps payload) ∧
     ((q.put s false false task_id kind payload).2.1).lists
        (q.prefixStr ++ "_list")
        = s.lists (q.prefixStr ++ "_list") ++ [task_id]) ∧
    ((EndpointQueue.init e hn port).rq.prefixStr = "task_" ++ e ∧
     (EndpointQueue.init e hn port).queue_name = "task_" ++ e ++ "_list") := by
  refine ⟨⟨?_, ?_⟩, ?_, ?_⟩ <;>
    simp [RedisQueue.put, RedisStore.hset, RedisStore.rpush,
          EndpointQueue.init, RedisQueue.init, hconn]

/-- Witness for C3 at a concrete connected client, empty store and
endpoint `ep-a`. -/
theorem store_key_layout_witness :
    (((q0.put store0 false false "t1" "result" jpayload).2.1).hashes
        ("task_" ++ "t1") "result" = some (Json.dumps jpayload) ∧
     ((q0.put store0 false false "t1" "result" jpayload).2.1).lists
        (q0.prefixStr ++ "_list")
        = store0.lists (q0.prefixStr ++ "_list") ++ ["t1"]) ∧
    ((EndpointQueue.init "ep-a" "127.0.0.1" 6379).rq.prefixStr = "task_" ++ "ep-a" ∧
     (EndpointQueue.init "ep-a" "127.0.0.1" 6379).queue_name
        = "task_" ++ "ep-a" ++ "_list") :=
  store_key_layout q0 store0 7 "t1" "result" jpayload "ep-a" "127.0.0.1" 6379 rfl

/-- Claim C7: in `put` the write of the payload to the hash record is
issued strictly before the task id is appended to the list: in every
execution (any fault flags) a recorded `rpush` of the task id is
preceded by the recorded `hset` of its payload, and in the
failure-free execution the effect trace is exactly the `hset` followed
by the `rpush`. -/
theorem put_hset_before_rpush
    (q : RedisQueue) (s : RedisStore) (c : Nat) (task_id kind : String)
    (payload : Json) (fh fr : Bool) (hconn : q.redis_client = some c) :
    (∀ i, ((q.put s fh fr task_id kind payload).2.2).get? i
            = some (.rpushOp (q.prefixStr ++ "_list") task_id) →
       ∃ j, j < i ∧ ((q.put s fh fr task_id kind payload).2.2).get? j
            = some (.hsetOp ("task_" ++ task_id) kind payload.dumps)) ∧
    (q.put s false false task_id kind payload).2.2
      = [.hsetOp ("task_" ++ task_id) kind payload.dumps,
         .rpushOp (q.prefixStr ++ "_list") task_id] := by
  constructor
  · intro i hi
    cases fh with
    | true => simp [RedisQueue.put, hconn] at hi
    | false =>
        cases fr with
        | true => rcases i with _ | i <;> simp [RedisQueue.put, hconn] at hi
        | false =>
            rcases i with _ | _ | i <;> simp [RedisQueue.put, hconn] at hi
            exact ⟨0, by omega, by simp [RedisQueue.put, hconn]⟩
  · simp [RedisQueue.put, hconn]

/-- Witness for C7 at a concrete connected client and empty store,
with the rpush-failure flags set. -/
theorem put_hset_before_rpush_witness :
    (∀ i, ((q0.put store0 false true "t1" "result" jpayload).2.2).get? i
            = some (.rpushOp (q0.prefixStr ++ "_list") "t1") →
       ∃ j, j < i ∧ ((q0.put store0 false true "t1" "result" jpayload).2.2).get? j
            = some (.hsetOp ("task_" ++ "t1") "result" jpayload.dumps)) ∧
    (q0.put store0 false false "t1" "result" jpayload).2.2
      = [.hsetOp ("task_" ++ "t1") "result" jpayload.dumps,
         .rpushOp (q0.prefixStr ++ "_list") "t1"] :=
  put_hset_before_rpush q0 store0 7 "t1" "result" jpayload false true rfl

/-- Claim C8: `put` overwrites only the hash field of that exact
`(task_id, kind)`: every other hash key or field is unchanged, and two
consecutive `put`s with the same `task_id` and different `kind`s leave
both fields holding their own payloads. -/
theorem put_frame_other_kinds
    (q q2 : RedisQueue) (s : RedisStore) (c c2 : Nat)
    (task_id kind kind2 : String) (payload payload2 : Json)
    (hconn : q.redis_client = some c) (hconn2 : q2.redis_client = some c2)
    (hk : kind ≠ kind2) :
    (((q.put s false false task_id kind payload).2.1).hashes
        ("task_" ++ task_id) kind = some payload.dumps ∧
     (∀ k' f', k' ≠ "task_" ++ task_id ∨ f' ≠ kind →
        ((q.put s false false task_id kind payload).2.1).hashes k' f'
          = s.hashes k' f')) ∧
    (((q2.put ((q.put s false false task_id kind payload).2.1) false false
          task_id kind2 payload2).2.1).hashes
        ("task_" ++ task_id) kind = some payload.dumps ∧
     ((q2.put ((q.put s false false task_id kind payload).2.1) false false
          task_id kind2 payload2).2.1).hashes
        ("task_" ++ task_id) kind2 = some payload2.dumps) := by
  refine ⟨⟨?_, ?_⟩, ?_, ?_⟩
  · simp [RedisQueue.put, RedisStore.hset, RedisStore.rpush, hconn]
  · intro k' f' h
    rcases h with h | h <;>
      simp [RedisQueue.put, RedisStore.hset, RedisStore.rpush, hconn, h]
  · simp [RedisQueue.put, RedisStore.hset, RedisStore.rpush, hconn, hconn2, hk]
  · simp [RedisQueue.put, RedisStore.hset, RedisStore.rpush, hconn, hconn2]

/-- Witness for C8 at a concrete connected client, empty store and the
two kinds `function` and `result`. -/
theorem put_frame_other_kinds_witness :
    (((q0.put store0 false false "t1" "function" jpayload).2.1).hashes
        ("task_" ++ "t1") "function" = some jpayload.dumps ∧
     (∀ k' f', k' ≠ "task_" ++ "t1" ∨ f' ≠ "function" →
        ((q0.put store0 false false "t1" "function" jpayload).2.1).hashes k' f'
          = store0.hashes k' f')) ∧
    (((q0.put ((q0.put store0 false false "t1" "function" jpayload).2.1) false false
          "t1" "result" jpayload2).2.1).hashes
        ("task_" ++ "t1") "function" = some jpayload.dumps ∧
     ((q0.put ((q0.put store0 false false "t1" "function" jpayload).2.1) false false
          "t1" "result" jpayload2).2.1).hashes
        ("task_" ++ "t1") "result" = some jpayload2.dumps) :=
  put_frame_other_kinds q0 q0 store0 7 7 "t1" "function" "result"
    jpayload jpayload2 rfl rfl (by decide)

/-- Claim C5: on a connected client, when the list is empty for the
whole window, `get(kind, t)` and `dequeue(t)` fail with `Empty` after
the full `t` seconds elapsed, not before (a successful pop returns
immediately); `Empty` is the outcome if and only if the blocking pop
returns no element, i.e. iff the list is empty. -/
theorem empty_timeout_semantics
    (q : RedisQueue) (epq : EndpointQueue) (s : RedisStore) (c c' : Nat)
    (kind : String) (t : Nat) (from_id : String → FxTask)
    (hconn : q.redis_client = some c) (hconn' : epq.rq.redis_client = some c') :
    ((q.get s kind t).1 = .error .empty ↔ s.lists (q.prefixStr ++ "_list") = []) ∧
    (s.lists (q.prefixStr ++ "_list") = [] → (q.get s kind t).2.2 = t) ∧
    (s.lists (q.prefixStr ++ "_list") ≠ [] → (q.get s kind t).2.2 = 0) ∧
    ((epq.dequeue s t from_id).1 = .error .empty ↔ s.lists epq.queue_name = []) ∧
    (s.lists epq.queue_name = [] → (epq.dequeue s t from_id).2.2 = t) ∧
    (s.lists epq.queue_name ≠ [] → (epq.dequeue s t from_id).2.2 = 0) := by
  have hget : ∀ x xs, s.lists (q.prefixStr ++ "_list") = x :: xs →
      (q.get s kind t).1 ≠ .error .empty ∧ (q.get s kind t).2.2 = 0 := by
    intro x xs hl
    rcases hh : s.hashes ("task_" ++ x) kind with _ | j
    · simp [RedisQueue.get, RedisStore.blpop, RedisStore.hget, hconn, hl, hh]
    · rcases hj : Json.loads j with _ | v <;>
        simp [RedisQueue.get, RedisStore.blpop, RedisStore.hget, hconn, hl, hh, hj]
  have hdeq : ∀ x xs, s.lists epq.queue_name = x :: xs →
      (epq.dequeue s t from_id).1 ≠ .error .empty ∧
      (epq.dequeue s t from_id).2.2 = 0 := by
    intro x xs hl
    simp [EndpointQueue.dequeue, RedisStore.blpop, hconn', hl]
  refine ⟨?_, ?_, ?_, ?_, ?_, ?_⟩
  · constructor
    · intro hres
      rcases hl : s.lists (q.prefixStr ++ "_list") with _ | ⟨x, xs⟩
      · rfl
      · exact absurd hres (hget x xs hl).1
    · intro hl
      simp [RedisQueue.get, RedisStore.blpop, hconn, hl]
  · intro hl
    simp [RedisQueue.get, RedisStore.blpop, hconn, hl]
  · intro hl
    rcases hl' : s.lists (q.prefixStr ++ "_list") with _ | ⟨x, xs⟩
    · exact absurd hl' hl
    · exact (hget x xs hl').2
  · constructor
    · intro hres
      rcases hl : s.lists epq.queue_name with _ | ⟨x, xs⟩
      · rfl
      · exact absurd hres (hdeq x xs hl).1
    · intro hl
      simp [EndpointQueue.dequeue, RedisStore.blpop, hconn', hl]
  · intro hl
    simp [EndpointQueue.dequeue, RedisStore.blpop, hconn', hl]
  · intro hl
    rcases hl' : s.lists epq.queue_name with _ | ⟨x, xs⟩
    · exact absurd hl' hl
    · exact (hdeq x xs hl').2

/-- Witness for C5 at concrete connected clients over the empty
store with timeout 2. -/
theorem empty_timeout_semantics_witness :
    ((q0.get store0 "result" 2).1 = .error .empty
        ↔ store0.lists (q0.prefixStr ++ "_list") = []) ∧
    (store0.lists (q0.prefixStr ++ "_list") = [] →
        (q0.get store0 "result" 2).2.2 = 2) ∧
    (store0.lists (q0.prefixStr ++ "_list") ≠ [] →
        (q0.get store0 "result" 2).2.2 = 0) ∧
    ((epq0.dequeue store0 2 lookup0).1 = .error .empty
        ↔ store0.lists epq0.queue_name = []) ∧
    (store0.lists epq0.queue_name = [] → (epq0.dequeue store0 2 lookup0).2.2 = 2) ∧
    (store0.lists epq0.queue_name ≠ [] → (epq0.dequeue store0 2 lookup0).2.2 = 0) :=
  empty_timeout_semantics q0 epq0 store0 7 3 "result" 2 lookup0 rfl rfl

/-- Claim C1: on a connected client whose queue list is quiescent (no
pending ids, i.e. no other queue activity), `put(task_id, kind,
payload)` followed by `get(kind, timeout)` succeeds and returns the
pair `(task_id, p)` where `p` is the original payload after a JSON
encode/decode round trip. -/
theorem put_then_get_roundtrip
    (q : RedisQueue) (s : RedisStore) (c : Nat) (task_id kind : String)
    (payload p : Json) (timeout : Nat)
    (hconn : q.redis_client = some c)
    (hquiet : s.lists (q.prefixStr ++ "_list") = [])
    (hjson : Json.loads (Json.dumps payload) = some p) :
    (q.put s false false task_id kind payload).1 = .ok () ∧
    (q.get (q.put s false false task_id kind payload).2.1 kind timeout).1
      = .ok (task_id, p) := by
  constructor
  · simp [RedisQueue.put, hconn]
  · simp [RedisQueue.put, RedisQueue.get, RedisStore.blpop, RedisStore.rpush,
          RedisStore.hset, RedisStore.hget, hconn, hquiet, hjson]

/-- Witness for C1 at a concrete connected client, empty store and a
two-field object payload, which round-trips to itself. -/
theorem put_then_get_roundtrip_witness :
    (q0.put store0 false false "t1" "result" jpayload).1 = .ok () ∧
    (q0.get (q0.put store0 false false "t1" "result" jpayload).2.1 "result" 5).1
      = .ok ("t1", jpayload) :=
  put_then_get_roundtrip q0 store0 7 "t1" "result" jpayload jpayload 5 rfl rfl (by rfl)
